import Mathlib

/-!
Verification of the restock-notification bot.

The repository ships the browser front-end: the demo dashboard script
(`src/unnamed/part_001`, plain-JS page with an in-memory product list and a
simulated monitoring loop) and the API-backed dashboard
(`src/static/js/dashboard.js`).  Those scripts are embedded below as pure
Lean functions over explicit state records.

The Python monitoring engine described by the specification (StockEvaluator,
per-product state machine, Scheduler internals) is not among the shipped
source files; the definitions in the `Engine` section are modelled from the
specification's contracts and are marked as such.
-/

namespace RestockBot

/-! ## Engine core (modelled from the spec) -/

/-- Modelled from the spec: outcome of a single product check
(`CheckResult.outcome ∈ {InStock, OutOfStock, FetchFailed, ExtractFailed}`). -/
inductive EvalResult
  | InStock
  | OutOfStock
  | FetchFailed
  | ExtractFailed
deriving DecidableEq, Repr

/-- Modelled from the spec: per-product lifecycle state
(`Active` is subject to checks, `Suspended` is terminal for the engine). -/
inductive Lifecycle
  | Active
  | Suspended
deriving DecidableEq, Repr

/-- Modelled from the spec: the Product record of §3.  The real store lives
in the Python backend, which is not among the shipped source files. -/
structure EngineProduct where
  id : Nat
  name : String
  url : String
  locator : String
  marker : String
  notifyTarget : String
  state : Lifecycle
  lastCheckedAt : Option Nat
  createdAt : Nat
  lastError : Option String
deriving DecidableEq, Repr

/-- Modelled from the spec: the StockEvaluator contract of §4.2.
`evaluate (extracted, unavailable_marker)`: `NotFound` maps to
`ExtractFailed`; otherwise the whitespace-trimmed extracted text is compared
case-sensitively against the marker, equal meaning `OutOfStock` and anything
else meaning `InStock`.  The evaluator itself is in the missing Python
backend. -/
def evaluate (extracted : Option String) (marker : String) : EvalResult :=
  match extracted with
  | none => EvalResult.ExtractFailed
  | some t => if t.trim = marker then EvalResult.OutOfStock else EvalResult.InStock

/-- Modelled from the spec: the ProductState transition rules of §4.3.
Returns the updated product together with the number of notifications
emitted by the transition (0 or 1).  Only an `Active` product receiving
`InStock` suspends and notifies; failures update `last_error` only;
`Suspended` is terminal, so any result delivered to a suspended product has
no effect and fires nothing. -/
def applyCheck (p : EngineProduct) (r : EvalResult) (now : Nat) : EngineProduct × Nat :=
  match p.state with
  | Lifecycle.Suspended => (p, 0)
  | Lifecycle.Active =>
    match r with
    | EvalResult.InStock =>
        ({ p with state := Lifecycle.Suspended, lastCheckedAt := some now }, 1)
    | EvalResult.OutOfStock =>
        ({ p with lastCheckedAt := some now }, 0)
    | EvalResult.FetchFailed =>
        ({ p with lastCheckedAt := some now, lastError := some "fetch failed" }, 0)
    | EvalResult.ExtractFailed =>
        ({ p with lastCheckedAt := some now, lastError := some "extract failed" }, 0)

/-- Modelled from the spec: a whole execution, folding a timed sequence of
check results over one product and accumulating the notification count. -/
def runChecks (p : EngineProduct) : List (EvalResult × Nat) → EngineProduct × Nat
  | [] => (p, 0)
  | (r, t) :: rest =>
    let step := applyCheck p r t
    let tail := runChecks step.1 rest
    (tail.1, step.2 + tail.2)

/-- Modelled from the spec: one per-product check step of §4.4 (steps 3–4):
classify the extracted text against the product's own marker, then apply the
state transition; the classification is returned alongside. -/
def checkOnce (p : EngineProduct) (extracted : Option String) (now : Nat) :
    EngineProduct × EvalResult :=
  let r := evaluate extracted p.marker
  ((applyCheck p r now).1, r)

theorem applyCheck_suspended (p : EngineProduct) (r : EvalResult) (now : Nat)
    (h : p.state = Lifecycle.Suspended) : applyCheck p r now = (p, 0) := by
  simp [applyCheck, h]

theorem runChecks_notif_bound (rs : List (EvalResult × Nat)) (p : EngineProduct) :
    (runChecks p rs).2 ≤ (match p.state with | Lifecycle.Active => 1 | Lifecycle.Suspended => 0) := by
  induction rs generalizing p with
  | nil => cases p.state <;> simp [runChecks]
  | cons head rest ih =>
    obtain ⟨r, t⟩ := head
    cases hs : p.state with
    | Suspended =>
      have hstep : applyCheck p r t = (p, 0) := applyCheck_suspended p r t hs
      have := ih p
      simp [runChecks, hstep, hs] at this ⊢
      simpa [hs] using this
    | Active =>
      cases r with
      | InStock =>
        have h2 := ih ({ p with state := Lifecycle.Suspended, lastCheckedAt := some t })
        simp [runChecks, applyCheck, hs] at h2 ⊢
        omega
      | OutOfStock =>
        have h2 := ih ({ p with lastCheckedAt := some t })
        simp [runChecks, applyCheck, hs] at h2 ⊢
        omega
      | FetchFailed =>
        have h2 := ih ({ p with lastCheckedAt := some t, lastError := some "fetch failed" })
        simp [runChecks, applyCheck, hs] at h2 ⊢
        omega
      | ExtractFailed =>
        have h2 := ih ({ p with lastCheckedAt := some t, lastError := some "extract failed" })
        simp [runChecks, applyCheck, hs] at h2 ⊢
        omega

/-- C1: an `Active` product receiving `InStock` becomes `Suspended` and emits
exactly one notification; a later `InStock` delivered to the now-suspended
product emits nothing, and over any execution the total number of emitted
notifications is at most one (there is at most one Active→Suspended restock
transition, hence at most one notification per transition). -/
theorem claim_C1 (p : EngineProduct) (h : p.state = Lifecycle.Active)
    (now now2 : Nat) (results : List (EvalResult × Nat)) :
    (applyCheck p EvalResult.InStock now).1.state = Lifecycle.Suspended ∧
    (applyCheck p EvalResult.InStock now).2 = 1 ∧
    (applyCheck (applyCheck p EvalResult.InStock now).1 EvalResult.InStock now2).2 = 0 ∧
    (runChecks p results).2 ≤ 1 := by
  refine ⟨by simp [applyCheck, h], by simp [applyCheck, h], by simp [applyCheck, h], ?_⟩
  have := runChecks_notif_bound results p
  simp [h] at this
  exact this

/-- Modelled from the spec: a concrete product used to witness the engine
theorems at evaluable inputs. -/
def sampleEngineProduct : EngineProduct :=
  { id := 1
    name := "MacBook Pro M1"
    url := "https://www.example.com/item"
    locator := ".a-color-price"
    marker := "Currently unavailable"
    notifyTarget := "user@example.com"
    state := Lifecycle.Active
    lastCheckedAt := none
    createdAt := 0
    lastError := none }

theorem claim_C1_witness :
    sampleEngineProduct.state = Lifecycle.Active ∧
    ((applyCheck sampleEngineProduct EvalResult.InStock 5).1.state = Lifecycle.Suspended ∧
     (applyCheck sampleEngineProduct EvalResult.InStock 5).2 = 1 ∧
     (applyCheck (applyCheck sampleEngineProduct EvalResult.InStock 5).1
        EvalResult.InStock 6).2 = 0 ∧
     (runChecks sampleEngineProduct
        [(EvalResult.OutOfStock, 4), (EvalResult.InStock, 5), (EvalResult.InStock, 6)]).2 ≤ 1) :=
  ⟨by decide,
   claim_C1 sampleEngineProduct (by decide) 5 6
     [(EvalResult.OutOfStock, 4), (EvalResult.InStock, 5), (EvalResult.InStock, 6)]⟩

/-- C2: `evaluate` returns `ExtractFailed` exactly on `NotFound`; on extracted
text it returns `OutOfStock` precisely when the trimmed text equals the
marker (case-sensitive string equality) and `InStock` otherwise, never
`ExtractFailed`. -/
theorem claim_C2 (t marker : String) :
    evaluate none marker = EvalResult.ExtractFailed ∧
    evaluate (some t) marker =
      (if t.trim = marker then EvalResult.OutOfStock else EvalResult.InStock) ∧
    evaluate (some t) marker ≠ EvalResult.ExtractFailed := by
  refine ⟨rfl, rfl, ?_⟩
  by_cases h : t.trim = marker <;> simp [evaluate, h]

/-- C4: the in-stock/out-of-stock classification of a check is a deterministic
function of the extracted text and the product's marker alone (two runs on
products carrying the same marker, at any times, classify identically), and
the check mutates nothing outside the recorded outcome: identity, display
name, url, locator, marker, notification target and creation timestamp are
all preserved. -/
theorem claim_C4 (p q : EngineProduct) (e : Option String) (n1 n2 : Nat)
    (h : p.marker = q.marker) :
    (checkOnce p e n1).2 = (checkOnce q e n2).2 ∧
    (checkOnce p e n1).1.id = p.id ∧
    (checkOnce p e n1).1.name = p.name ∧
    (checkOnce p e n1).1.url = p.url ∧
    (checkOnce p e n1).1.locator = p.locator ∧
    (checkOnce p e n1).1.marker = p.marker ∧
    (checkOnce p e n1).1.notifyTarget = p.notifyTarget ∧
    (checkOnce p e n1).1.createdAt = p.createdAt := by
  constructor
  · simp [checkOnce, h]
  · cases hs : p.state <;> cases he : e <;>
      simp [checkOnce, evaluate, applyCheck, hs] <;>
      split <;> simp [applyCheck, hs]

theorem claim_C4_witness :
    sampleEngineProduct.marker = sampleEngineProduct.marker ∧
    ((checkOnce sampleEngineProduct (some "In Stock") 3).2 =
       (checkOnce sampleEngineProduct (some "In Stock") 7).2 ∧
     (checkOnce sampleEngineProduct (some "In Stock") 3).1.id = sampleEngineProduct.id ∧
     (checkOnce sampleEngineProduct (some "In Stock") 3).1.name = sampleEngineProduct.name ∧
     (checkOnce sampleEngineProduct (some "In Stock") 3).1.url = sampleEngineProduct.url ∧
     (checkOnce sampleEngineProduct (some "In Stock") 3).1.locator = sampleEngineProduct.locator ∧
     (checkOnce sampleEngineProduct (some "In Stock") 3).1.marker = sampleEngineProduct.marker ∧
     (checkOnce sampleEngineProduct (some "In Stock") 3).1.notifyTarget =
       sampleEngineProduct.notifyTarget ∧
     (checkOnce sampleEngineProduct (some "In Stock") 3).1.createdAt =
       sampleEngineProduct.createdAt) :=
  ⟨rfl, claim_C4 sampleEngineProduct sampleEngineProduct (some "In Stock") 3 7 rfl⟩

/-! ## Demo dashboard embedding (src/unnamed/part_001) -/

/-- Product record of the demo dashboard script (`src/unnamed/part_001`): the
in-memory objects of the `products` array.  `id` is the `Date.now()`
millisecond timestamp taken at creation, `lastChecked` is `null` or a
formatted date string. -/
structure JsProduct where
  id : Nat
  name : String
  url : String
  selector : String
  expectedText : String
  email : String
  isActive : Bool
  lastChecked : Option String
  createdAt : String
deriving DecidableEq, Repr

/-- Mutable state of the demo dashboard page: the `products` array, the
`#logsList` DOM children (newest first), the `monitoringActive` flag, whether
a `setInterval` loop is installed, and the `#monitoringStatus` text. -/
structure DashState where
  products : List JsProduct
  logs : List String
  monitoringActive : Bool
  intervalRunning : Bool
  statusText : String
deriving DecidableEq, Repr

/-- `addLogEntry` (`part_001:246-260`): prepend a timestamped entry before the
first child, then drop children from the end while more than 20 remain. -/
def addLogEntry (logs : List String) (now message : String) : List String :=
  List.take 20 ((now ++ " - " ++ message) :: logs)

/-- `updateStats` (`part_001:100-108`): the three status counters rendered by
the demo dashboard. -/
structure Stats where
  totalProducts : Nat
  activeProducts : Nat
  notificationsSent : Nat
deriving DecidableEq, Repr

/-- `updateStats` (`part_001:100-108`): `notificationsSent` is computed as the
number of products whose `isActive` flag is false (the source comments this
as "Simplified"). -/
def updateStats (products : List JsProduct) : Stats :=
  { totalProducts := products.length
    activeProducts := (products.filter (fun p => p.isActive)).length
    notificationsSent := (products.filter (fun p => !p.isActive)).length }

/-- Form fields read by `addProduct` / `handleAddProduct`. -/
structure AddForm where
  name : String
  url : String
  selector : String
  expectedText : String
  email : String
deriving DecidableEq, Repr

/-- The product object built by `addProduct` (`part_001:114-124`): id is
`Date.now()` (here `now`, the millisecond clock), `isActive: true`,
`lastChecked: null`, `createdAt` the formatted current date (`nowStr`). -/
def newProduct (now : Nat) (nowStr : String) (f : AddForm) : JsProduct :=
  { id := now
    name := f.name
    url := f.url
    selector := f.selector
    expectedText := f.expectedText
    email := f.email
    isActive := true
    lastChecked := none
    createdAt := nowStr }

/-- `addProduct` (`part_001:110-132`): push the new product onto the array. -/
def addProduct (now : Nat) (nowStr : String) (f : AddForm) (st : DashState) : DashState :=
  { st with products := st.products ++ [newProduct now nowStr f] }

/-- `testProduct` (`part_001:134-154`): find the product by id (first match);
if present, log the simulated outcome and set its `lastChecked` to the
current time.  The coin flip `Math.random() > 0.5` is external
nondeterminism, passed in as `isInStock`. -/
def testProductUpdate (productId : Nat) (isInStock : Bool) (nowStr : String)
    (st : DashState) : DashState :=
  match st.products.findIdx? (fun p => p.id == productId) with
  | none => st
  | some i =>
    match st.products.get? i with
    | none => st
    | some p =>
      { st with
        products := st.products.set i { p with lastChecked := some nowStr }
        logs := addLogEntry st.logs nowStr
          ("Tested " ++ p.name ++ ": " ++ (if isInStock then "IN STOCK" else "OUT OF STOCK")) }

/-- `deleteProduct` (`part_001:174-181`): filter the product out of the array
(after the user confirms; the confirmed path is modelled). -/
def deleteProduct (productId : Nat) (st : DashState) : DashState :=
  { st with products := st.products.filter (fun p => p.id != productId) }

/-- Indices of the products with `isActive` set: the positions selected by
`products.filter(p => p.isActive)` in `part_001:195`. -/
def activeIndices (products : List JsProduct) : List Nat :=
  (List.range products.length).filter (fun i =>
    match products.get? i with
    | some p => p.isActive
    | none => false)

/-- One tick of the simulated monitoring loop (`part_001:194-202`): filter
the active products; if any exist, pick the one at the random index
(`Math.floor(Math.random() * activeProducts.length)`, modelled as `k` modulo
the count), log `Checked <name>: OUT OF STOCK`, and set that product's
`lastChecked`. -/
def monitorTick (k : Nat) (nowStr : String) (st : DashState) : DashState :=
  let idxs := activeIndices st.products
  match idxs.get? (k % idxs.length) with
  | none => st
  | some i =>
    match st.products.get? i with
    | none => st
    | some p =>
      { st with
        logs := addLogEntry st.logs nowStr ("Checked " ++ p.name ++ ": OUT OF STOCK")
        products := st.products.set i { p with lastChecked := some nowStr } }

/-- `startMonitoring` (`part_001:183-203`): early-return when already active;
otherwise set the flag, the status text, log the start, and install the
interval loop. -/
def startMonitoring (nowStr : String) (st : DashState) : DashState :=
  if st.monitoringActive then st
  else
    { st with
      monitoringActive := true
      statusText := "🟢 Running"
      logs := addLogEntry st.logs nowStr "Bot monitoring started"
      intervalRunning := true }

/-- `stopMonitoring` (`part_001:205-218`): early-return when not active;
otherwise clear the flag, set the status text, clear the interval, and log
the stop. -/
def stopMonitoring (nowStr : String) (st : DashState) : DashState :=
  if !st.monitoringActive then st
  else
    { st with
      monitoringActive := false
      statusText := "🔴 Stopped"
      intervalRunning := false
      logs := addLogEntry st.logs nowStr "Bot monitoring stopped" }

/-! ## API dashboard embedding (src/static/js/dashboard.js) -/

/-- `renderLogs` (`dashboard.js:155-169`): `logs.slice(-20).reverse()` — the
last 20 entries of the API log array (oldest first), newest rendered
first. -/
def renderLogs (logs : List String) : List String :=
  (logs.drop (logs.length - 20)).reverse

/-- The ECMAScript whitespace class `\s` used by the email regex: WhiteSpace
(TAB, VT, FF, SP, NBSP, ZWNBSP and the Unicode space separators) together
with the line terminators (LF, CR, LS, PS). -/
def jsWhitespace (c : Char) : Bool :=
  let n := c.toNat
  n == 0x9 || n == 0xA || n == 0xB || n == 0xC || n == 0xD || n == 0x20 ||
  n == 0xA0 || n == 0x1680 || (decide (0x2000 ≤ n) && decide (n ≤ 0x200A)) ||
  n == 0x2028 || n == 0x2029 || n == 0x202F || n == 0x205F || n == 0x3000 ||
  n == 0xFEFF

/-- JS `String.prototype.trim()`: strip the leading and trailing characters of
the WhiteSpace/LineTerminator set — the same set as the `\s` class above. -/
def jsTrim (s : String) : String :=
  String.mk (((s.data.dropWhile jsWhitespace).reverse.dropWhile jsWhitespace).reverse)

/-- Text containing no whitespace character, as required of every segment of
the email regex character class `[^\s@]`. -/
def noWhitespace (s : String) : Bool :=
  s.data.all (fun c => !jsWhitespace c)

/-- Text containing a dot that is neither its first nor its last character:
the `[^\s@]+\.[^\s@]+` tail of the email regex admits exactly the strings
with such a dot (once `@` and whitespace are excluded separately). -/
def hasInnerDot (s : String) : Bool :=
  (List.range s.length).any (fun i =>
    decide (0 < i) && decide (i + 1 < s.length) && (s.data.get? i == some '.'))

/-- The email test of `handleAddProduct` (`dashboard.js:208`): the regex
`^[^\s@]+@[^\s@]+\.[^\s@]+$` matches exactly the strings with a single `@`,
a nonempty whitespace-free local part, and a whitespace-free domain
containing an inner dot. -/
def emailOk (s : String) : Bool :=
  match s.splitOn "@" with
  | [a, b] => a != "" && noWhitespace a && noWhitespace b && hasInnerDot b
  | _ => false

/-- Outcome of the add-product handler: either a rejection with the
notification message shown, or submission of the validated payload to
`POST /api/products`. -/
inductive AddOutcome
  | rejected (message : String)
  | submitted (data : AddForm)
deriving DecidableEq, Repr

/-- `handleAddProduct` (`dashboard.js:178-247`): trim the five fields with JS
`.trim()`, reject when any is empty, when `new URL(url)` throws (the browser
URL parser is an external collaborator, abstracted as the `urlParses`
oracle), or when the email regex fails; otherwise submit the payload. -/
def handleAddProduct (urlParses : String → Bool) (f : AddForm) : AddOutcome :=
  let d : AddForm :=
    { name := jsTrim f.name
      url := jsTrim f.url
      selector := jsTrim f.selector
      expectedText := jsTrim f.expectedText
      email := jsTrim f.email }
  if d.name == "" || d.url == "" || d.selector == "" || d.expectedText == "" || d.email == "" then
    AddOutcome.rejected "Please fill in all fields"
  else if !urlParses d.url then
    AddOutcome.rejected "Please enter a valid URL"
  else if !emailOk d.email then
    AddOutcome.rejected "Please enter a valid email address"
  else
    AddOutcome.submitted d

/-- Whether the handler reached the `fetch('/api/products', {method: 'POST'})`
call. -/
def isSubmitted : AddOutcome → Bool
  | AddOutcome.rejected _ => false
  | AddOutcome.submitted _ => true

/-! ## Concrete states used by the theorems -/

/-- The two sample products hard-coded at the top of `part_001` (lines 2–25). -/
def sampleProducts : List JsProduct :=
  [{ id := 1
     name := "MacBook Pro M1"
     url := "https://www.amazon.in/Apple-MacBook-Chip-13-inch-512GB/dp/B08N5WRWNW"
     selector := ".a-color-price"
     expectedText := "Currently unavailable"
     email := "user@example.com"
     isActive := true
     lastChecked := some "2024-01-15 14:25:00"
     createdAt := "2024-01-15 10:00:00" },
   { id := 2
     name := "Google Test"
     url := "https://www.google.com"
     selector := "title"
     expectedText := "NonExistentText"
     email := "user@example.com"
     isActive := false
     lastChecked := some "2024-01-15 14:20:00"
     createdAt := "2024-01-15 12:00:00" }]

/-- The demo page as initially loaded: sample products, monitoring stopped. -/
def sampleState : DashState :=
  { products := sampleProducts
    logs := []
    monitoringActive := false
    intervalRunning := false
    statusText := "🔴 Stopped" }

/-- A dashboard state with no products and monitoring stopped. -/
def emptyState : DashState :=
  { products := []
    logs := []
    monitoringActive := false
    intervalRunning := false
    statusText := "🔴 Stopped" }

/-- A first add-product form filling. -/
def formA : AddForm :=
  { name := "A", url := "https://a.example/", selector := "s1",
    expectedText := "gone", email := "a@b.com" }

/-- A second, different add-product form filling. -/
def formB : AddForm :=
  { name := "B", url := "https://b.example/", selector := "s2",
    expectedText := "gone", email := "b@b.com" }

/-- A running demo state with two Active products, neither checked yet. -/
def twoActiveState : DashState :=
  { products :=
      [{ id := 1, name := "A", url := "https://a.example/", selector := "s1",
         expectedText := "gone", email := "a@b.com", isActive := true,
         lastChecked := none, createdAt := "2024-01-15 10:00:00" },
       { id := 2, name := "B", url := "https://b.example/", selector := "s2",
         expectedText := "gone", email := "b@b.com", isActive := true,
         lastChecked := none, createdAt := "2024-01-15 11:00:00" }]
    logs := []
    monitoringActive := true
    intervalRunning := true
    statusText := "🟢 Running" }

/-! ## Helper lemmas -/

theorem set_self_of_get? {α : Type} (l : List α) :
    ∀ (i : Nat) (a : α), l.get? i = some a → l.set i a = l := by
  induction l with
  | nil => intro i a h; simp at h
  | cons x xs ih =>
    intro i a h
    cases i with
    | zero =>
      simp only [List.get?_cons_zero, Option.some.injEq] at h
      simp [h]
    | succ n =>
      simp only [List.get?_cons_succ] at h
      simp [List.set, ih n a h]

theorem map_set_of_get? {α β : Type} (l : List α) (i : Nat) (a b : α) (f : α → β)
    (hget : l.get? i = some b) (hf : f a = f b) : (l.set i a).map f = l.map f := by
  rw [List.map_set, hf]
  apply set_self_of_get?
  rw [List.get?_eq_getElem?, List.getElem?_map]
  rw [List.get?_eq_getElem?] at hget
  simp [hget]

theorem getLast?_cons_of_ne {α : Type} (x : α) (xs : List α) (h : xs ≠ []) :
    (x :: xs).getLast? = xs.getLast? := by
  cases xs with
  | nil => exact absurd rfl h
  | cons y ys => simp [List.getLast?]

theorem getLast?_drop_of_lt {α : Type} (l : List α) :
    ∀ (k : Nat), k < l.length → (l.drop k).getLast? = l.getLast? := by
  induction l with
  | nil => intro k h; simp at h
  | cons x xs ih =>
    intro k h
    cases k with
    | zero => rfl
    | succ n =>
      simp only [List.length_cons] at h
      have hn : n < xs.length := by omega
      have hne : xs ≠ [] := by
        intro hx; rw [hx] at hn; simp at hn
      rw [List.drop_succ_cons, ih n hn, getLast?_cons_of_ne x xs hne]

theorem monitorTick_products_map {α : Type} (k : Nat) (t : String) (st : DashState)
    (f : JsProduct → α) (hf : ∀ p s, f { p with lastChecked := some s } = f p) :
    (monitorTick k t st).products.map f = st.products.map f := by
  simp only [monitorTick]
  split
  · rfl
  · split
    · rfl
    · next p hp => exact map_set_of_get? st.products _ _ p f hp (hf p t)

theorem testProductUpdate_products_map {α : Type} (pid : Nat) (b : Bool) (t : String)
    (st : DashState) (f : JsProduct → α)
    (hf : ∀ p s, f { p with lastChecked := some s } = f p) :
    (testProductUpdate pid b t st).products.map f = st.products.map f := by
  simp only [testProductUpdate]
  split
  · rfl
  · split
    · rfl
    · next p hp => exact map_set_of_get? st.products _ _ p f hp (hf p t)

/-! ## Claims about the activity log -/

/-- C5: the demo activity log is a bounded newest-first sequence: recording an
entry prepends it (so the rendered list is most recent first), keeps at most
20 entries, and once full the evicted entries are exactly the oldest ones
(the tail beyond position 19); the API dashboard's `renderLogs` likewise
shows at most 20 entries with the most recent first (its head is the last,
i.e. newest, element of the log array). -/
theorem claim_C5 (logs : List String) (now message : String) (h : logs ≠ []) :
    addLogEntry logs now message = (now ++ " - " ++ message) :: logs.take 19 ∧
    (addLogEntry logs now message).length ≤ 20 ∧
    (addLogEntry logs now message).head? = some (now ++ " - " ++ message) ∧
    (renderLogs logs).length ≤ 20 ∧
    (renderLogs logs).head? = logs.getLast? := by
  refine ⟨rfl, ?_, rfl, ?_, ?_⟩
  · simpa [addLogEntry] using List.length_take_le 20 _
  · simp only [renderLogs, List.length_reverse, List.length_drop]
    omega
  · have hlen : 0 < logs.length := List.length_pos.mpr h
    have hlt : logs.length - 20 < logs.length := by omega
    rw [renderLogs, List.head?_reverse, getLast?_drop_of_lt logs _ hlt]

theorem claim_C5_witness :
    (["09:00 - old"] : List String) ≠ [] ∧
    (addLogEntry ["09:00 - old"] "10:00" "fresh" =
        ("10:00" ++ " - " ++ "fresh") :: (["09:00 - old"] : List String).take 19 ∧
     (addLogEntry ["09:00 - old"] "10:00" "fresh").length ≤ 20 ∧
     (addLogEntry ["09:00 - old"] "10:00" "fresh").head? =
        some ("10:00" ++ " - " ++ "fresh") ∧
     (renderLogs ["09:00 - old"]).length ≤ 20 ∧
     (renderLogs ["09:00 - old"]).head? = (["09:00 - old"] : List String).getLast?) :=
  ⟨by decide, claim_C5 ["09:00 - old"] "10:00" "fresh" (by decide)⟩

/-! ## Claims about product creation -/

/-- C6: a product created by `addProduct` starts with `isActive = true` and
`lastChecked = null`, its `createdAt` is the creation timestamp, the new
record is appended to the store, and no subsequent operation of the script
(test check, monitoring tick, start/stop) rewrites any product's
`createdAt`. -/
theorem claim_C6 (now : Nat) (nowStr : String) (f : AddForm) (st : DashState)
    (pid k : Nat) (b : Bool) (t : String) :
    (newProduct now nowStr f).isActive = true ∧
    (newProduct now nowStr f).lastChecked = none ∧
    (newProduct now nowStr f).createdAt = nowStr ∧
    (addProduct now nowStr f st).products = st.products ++ [newProduct now nowStr f] ∧
    (testProductUpdate pid b t st).products.map (fun p => p.createdAt) =
      st.products.map (fun p => p.createdAt) ∧
    (monitorTick k t st).products.map (fun p => p.createdAt) =
      st.products.map (fun p => p.createdAt) ∧
    (startMonitoring t st).products = st.products ∧
    (stopMonitoring t st).products = st.products := by
  refine ⟨rfl, rfl, rfl, rfl, ?_, ?_, ?_, ?_⟩
  · exact testProductUpdate_products_map pid b t st _ (fun p s => rfl)
  · exact monitorTick_products_map k t st _ (fun p s => rfl)
  · simp only [startMonitoring]
    split <;> rfl
  · simp only [stopMonitoring]
    split <;> rfl

/-- C7 counterexample: `addProduct` assigns `id: Date.now()`, so two
add-product requests landing in the same millisecond (clock value 1000)
create two distinct products that share the id 1000, refuting uniqueness
for creations "at any times". -/
theorem claim_C7_counterexample :
    ((addProduct 1000 "2024-01-15 10:00:00" formB
        (addProduct 1000 "2024-01-15 10:00:00" formA emptyState)).products.map
          (fun p => p.id)) = [1000, 1000] ∧
    (addProduct 1000 "2024-01-15 10:00:00" formB
        (addProduct 1000 "2024-01-15 10:00:00" formA emptyState)).products.get? 0 ≠
      (addProduct 1000 "2024-01-15 10:00:00" formB
        (addProduct 1000 "2024-01-15 10:00:00" formA emptyState)).products.get? 1 := by
  exact ⟨rfl, by decide⟩

/-- C7 (amended): a product's id is the `Date.now()` value at creation, so
two products created at distinct clock values receive distinct ids — but
creations within the same millisecond share an id — and no operation of the
script rewrites an existing product's id. -/
theorem claim_C7_amended (t1 t2 : Nat) (s1 s2 : String) (f g : AddForm)
    (h : t1 ≠ t2) (st : DashState) (pid k : Nat) (b : Bool) (ts : String) :
    (newProduct t1 s1 f).id = t1 ∧
    (newProduct t1 s1 f).id ≠ (newProduct t2 s2 g).id ∧
    (testProductUpdate pid b ts st).products.map (fun p => p.id) =
      st.products.map (fun p => p.id) ∧
    (monitorTick k ts st).products.map (fun p => p.id) =
      st.products.map (fun p => p.id) := by
  refine ⟨rfl, h, ?_, ?_⟩
  · exact testProductUpdate_products_map pid b ts st _ (fun p s => rfl)
  · exact monitorTick_products_map k ts st _ (fun p s => rfl)

theorem claim_C7_amended_witness :
    (1 : Nat) ≠ 2 ∧
    ((newProduct 1 "t1" formA).id = 1 ∧
     (newProduct 1 "t1" formA).id ≠ (newProduct 2 "t2" formB).id ∧
     (testProductUpdate 1 true "t3" sampleState).products.map (fun p => p.id) =
       sampleState.products.map (fun p => p.id) ∧
     (monitorTick 0 "t3" sampleState).products.map (fun p => p.id) =
       sampleState.products.map (fun p => p.id)) :=
  ⟨by decide, claim_C7_amended 1 2 "t1" "t2" formA formB (by decide) sampleState 1 0 true "t3"⟩

/-! ## Claims about the scheduler loop -/

/-- C3 counterexample: one tick of the demo monitoring cycle on a state with
two Active products checks only the randomly drawn one (index 0 here): the
product at index 1 is Active yet keeps `lastChecked = null` after the cycle,
so the cycle does not check every Active product. -/
theorem claim_C3_counterexample :
    ((twoActiveState.products.get? 1).map (fun p => p.isActive) = some true) ∧
    ((monitorTick 0 "2024-01-15 15:00:00" twoActiveState).products.get? 1 =
        twoActiveState.products.get? 1) ∧
    ((twoActiveState.products.get? 1).map (fun p => p.lastChecked) = some none) ∧
    ((monitorTick 0 "2024-01-15 15:00:00" twoActiveState).products.get? 0 ≠
        twoActiveState.products.get? 0) := by
  refine ⟨rfl, rfl, rfl, by decide⟩

/-- C3 (amended): each tick of the monitoring cycle reads the current Active
set and, when it is nonempty, checks exactly one product drawn from that set
(the one at the random index): that product's `lastChecked` is set, one log
entry is recorded for it, and every other position of the store is left
untouched. -/
theorem claim_C3_amended (st : DashState) (k : Nat) (t : String)
    (h : activeIndices st.products ≠ []) :
    ∃ i p, st.products.get? i = some p ∧ p.isActive = true ∧
      (monitorTick k t st).products =
        st.products.set i { p with lastChecked := some t } ∧
      (monitorTick k t st).logs =
        addLogEntry st.logs t ("Checked " ++ p.name ++ ": OUT OF STOCK") ∧
      ∀ j, j ≠ i → (monitorTick k t st).products.get? j = st.products.get? j := by
  have hlen : 0 < (activeIndices st.products).length := List.length_pos.mpr h
  have hk : k % (activeIndices st.products).length < (activeIndices st.products).length :=
    Nat.mod_lt _ hlen
  obtain ⟨i, hi⟩ :
      ∃ i, (activeIndices st.products).get? (k % (activeIndices st.products).length) = some i :=
    ⟨_, List.get?_eq_get hk⟩
  have himem : i ∈ activeIndices st.products := List.get?_mem hi
  have hfilter := List.mem_filter.mp himem
  obtain ⟨p, hp, hact⟩ : ∃ p, st.products.get? i = some p ∧ p.isActive = true := by
    rcases hq : st.products.get? i with _ | q
    · rw [hq] at hfilter; simp at hfilter
    · refine ⟨q, rfl, ?_⟩
      have := hfilter.2
      rw [hq] at this
      simpa using this
  have hig : (activeIndices st.products)[k % (activeIndices st.products).length]? = some i := by
    rw [← List.get?_eq_getElem?]; exact hi
  have hpg : st.products[i]? = some p := by
    rw [← List.get?_eq_getElem?]; exact hp
  refine ⟨i, p, hp, hact, ?_, ?_, ?_⟩
  · simp [monitorTick, hi, hp, hig, hpg]
  · simp [monitorTick, hi, hp, hig, hpg]
  · intro j hj
    simp only [monitorTick, hi, hp, hig, hpg]
    simp [List.get?_eq_getElem?, hig, hpg, List.getElem?_set_ne (fun he => hj he.symm)]

theorem claim_C3_amended_witness :
    activeIndices twoActiveState.products ≠ [] ∧
    (∃ i p, twoActiveState.products.get? i = some p ∧ p.isActive = true ∧
      (monitorTick 0 "2024-01-15 15:00:00" twoActiveState).products =
        twoActiveState.products.set i { p with lastChecked := some "2024-01-15 15:00:00" } ∧
      (monitorTick 0 "2024-01-15 15:00:00" twoActiveState).logs =
        addLogEntry twoActiveState.logs "2024-01-15 15:00:00"
          ("Checked " ++ p.name ++ ": OUT OF STOCK") ∧
      ∀ j, j ≠ i →
        (monitorTick 0 "2024-01-15 15:00:00" twoActiveState).products.get? j =
          twoActiveState.products.get? j) :=
  ⟨by decide, claim_C3_amended twoActiveState 0 "2024-01-15 15:00:00" (by decide)⟩

/-- C9: the monitoring lifecycle flag is a guarded two-state machine: starting
while already running is the identity on the whole dashboard state (so no
second interval loop is installed), stopping while already stopped is the
identity, starting from stopped sets the flag and installs the loop, and
stopping from running clears the flag and cancels the loop. -/
theorem claim_C9 (st : DashState) (t1 t2 : String) :
    startMonitoring t1 { st with monitoringActive := true } =
      { st with monitoringActive := true } ∧
    stopMonitoring t1 { st with monitoringActive := false } =
      { st with monitoringActive := false } ∧
    (startMonitoring t1 { st with monitoringActive := false }).monitoringActive = true ∧
    (startMonitoring t1 { st with monitoringActive := false }).intervalRunning = true ∧
    (stopMonitoring t2 { st with monitoringActive := true }).monitoringActive = false ∧
    (stopMonitoring t2 { st with monitoringActive := true }).intervalRunning = false := by
  refine ⟨?_, ?_, ?_, ?_, ?_, ?_⟩ <;> simp [startMonitoring, stopMonitoring]

/-! ## Claims about the add-product boundary and the stats panel -/

/-- C8: the add-product handler submits to the backend exactly when, after
trimming, all five fields are nonempty, the URL parses, and the email matches
the validation regex; a missing field, malformed URL, or malformed email is
rejected at the boundary and nothing is submitted. -/
theorem claim_C8 (urlParses : String → Bool) (f : AddForm) :
    isSubmitted (handleAddProduct urlParses f) =
      (!(jsTrim f.name == "") && !(jsTrim f.url == "") && !(jsTrim f.selector == "") &&
       !(jsTrim f.expectedText == "") && !(jsTrim f.email == "") &&
       urlParses (jsTrim f.url) && emailOk (jsTrim f.email)) := by
  simp only [handleAddProduct]
  cases h1 : (jsTrim f.name == "") <;> cases h2 : (jsTrim f.url == "") <;>
    cases h3 : (jsTrim f.selector == "") <;> cases h4 : (jsTrim f.expectedText == "") <;>
    cases h5 : (jsTrim f.email == "") <;> cases h6 : urlParses (jsTrim f.url) <;>
    cases h7 : emailOk (jsTrim f.email) <;>
    simp [isSubmitted, h1, h2, h3, h4, h5, h6, h7]

/-- C10: the dashboard's `notificationsSent` statistic is computed as the
number of products whose active flag is false, not as a count of emitted
notifications: on the sample data it reports 1 although no notification was
ever sent, and deleting the inactive product drops the report to 0 even
though deletion sends nothing. -/
theorem claim_C10 :
    (∀ products : List JsProduct,
        (updateStats products).notificationsSent =
          (products.filter (fun p => !p.isActive)).length) ∧
    (updateStats sampleState.products).notificationsSent = 1 ∧
    (updateStats (deleteProduct 2 sampleState).products).notificationsSent = 0 := by
  exact ⟨fun _ => rfl, by decide, by decide⟩

end RestockBot
